import Mathlib

/-!
Shallow embedding of the wk08_dash COVID-19 dashboard
(src/wk08_dash/dash_app.py, src/wk08_dash/wsgi.py, src/wk08_dash/app.py).

The pandas dataframe df loaded from the JHU time-series CSV is modelled as a
list of rows; each row carries the identifying columns the program uses
(Admin2, Province_State, FIPS) together with the numeric date columns, which
in the CSV run from the column named 1/22/20 through the last column
df.columns[-1].  Case counts are integers.  Figures are modelled by the data
they carry (x list, y list, and for the choropleth the geojson, locations, z
and hovertext arguments the program passes to the plotting call); purely
presentational layout constants (margins, zoom, colour bar) are not part of
the model.  A pandas KeyError on a missing column is modelled as Option.none.
-/

namespace Wk08

/-- Unique values of a column in order of first occurrence, as pandas
Series.unique returns them; the first argument accumulates values already
seen. -/
def uniqueAux : List String → List String → List String
  | _, [] => []
  | seen, x :: xs => if x ∈ seen then uniqueAux seen xs else x :: uniqueAux (x :: seen) xs

/-- pandas unique: distinct values in first-occurrence order. -/
def uniqueFirst (l : List String) : List String := uniqueAux [] l

/-- Elementwise values[1:] - values[:-1], as computed for the daily-new-cases
line charts. -/
def diffs (l : List Int) : List Int :=
  List.zipWith (fun a b => a - b) (l.drop 1) l.dropLast

/-- One row of df after the FIPS fix: Admin2 (county), Province_State, the
five-digit FIPS string, and the values of the date columns in order. -/
structure Row where
  admin2 : String
  province_state : String
  fips : String
  cases : List Int
deriving DecidableEq

/-- The loaded table: the names of the date columns (the slice from 1/22/20
through df.columns[-1]) and the rows. -/
structure Df where
  dateCols : List String
  rows : List Row
deriving DecidableEq

/-- Number of date columns. -/
def Df.nDates (df : Df) : Nat := df.dateCols.length

/-- df.columns[-1], the name of the last (most recent) date column. -/
def Df.last_column (df : Df) : String := df.dateCols.getLastD ("")

/-- Column selection df[name] on a date column; a missing column is a pandas
KeyError, modelled as none. -/
def Df.col (df : Df) (name : String) : Option (List Int) :=
  if name ∈ df.dateCols then
    some (df.rows.map (fun r => r.cases.getD (df.dateCols.indexOf name) 0))
  else
    none

/-- Column-wise sum over a set of rows: df.loc[:, "1/22/20":last_column].sum()
restricted to the given rows, one total per date column. -/
def colSum (n : Nat) (rows : List Row) : List Int :=
  (List.range n).map (fun i => (rows.map (fun r => r.cases.getD i 0)).sum)

/-- df["Province_State"].unique(). -/
def statesOf (df : Df) : List String := uniqueFirst (df.rows.map (fun r => r.province_state))

/-- df["Admin2"].unique(). -/
def countiesOf (df : Df) : List String := uniqueFirst (df.rows.map (fun r => r.admin2))

/-- date_cases_by_state = df.groupby("Province_State").sum().loc[:,"1/22/20":last_column].T,
as the association list from each state to its per-date group sum. -/
def date_cases_by_state (df : Df) : List (String × List Int) :=
  (statesOf df).map (fun st => (st, colSum df.nDates (df.rows.filter (fun r => r.province_state == st))))

/-- date_cases_by_county = df.groupby("Admin2").sum().loc[:,"1/22/20":last_column].T,
as the association list from each county name to its per-date group sum
(county names repeated across states are merged, as groupby does). -/
def date_cases_by_county (df : Df) : List (String × List Int) :=
  (countiesOf df).map (fun c => (c, colSum df.nDates (df.rows.filter (fun r => r.admin2 == c))))

/-- Selecting column key of the transposed group-by table; a missing key is a
pandas KeyError, modelled as none. -/
def tableLookup (tbl : List (String × List Int)) (key : String) : Option (List Int) :=
  (tbl.find? (fun p => p.1 == key)).map (fun p => p.2)

/-- The data carried by a go.Scatter line figure: x values and y values. -/
structure LineFig where
  x : List String
  y : List Int
deriving DecidableEq

/-- The county-boundary geojson, which the program treats as a black box beyond being passed to
the plotting call. -/
structure Geo where
  raw : String
deriving DecidableEq

/-- The data carried by a go.Choroplethmapbox figure: the arguments the
program passes to the plotting call. -/
structure MapFig where
  geojson : Geo
  locations : List String
  z : List Int
  colorscale : String
  hovertext : List String
deriving DecidableEq

/-- The in-memory state built at module initialization: the dataframe, the
counties geojson, and every aggregate and figure precomputed at load time. -/
structure ModuleState where
  df : Df
  counties : Geo
  last_column : String
  hovertext : List String
  map_fig : Option MapFig
  total_cases : List Int
  line_fig : LineFig
  line_fig_day : LineFig
  byState : List (String × List Int)
  byCounty : List (String × List Int)
deriving DecidableEq

/-- The module-level state as computed top to bottom in dash_app.py from a
successfully loaded dataframe and geojson. -/
def mkModuleState (df : Df) (geo : Geo) : ModuleState :=
  let lastCol := df.last_column
  let hover := df.rows.map (fun r => r.admin2 ++ ", " ++ r.province_state)
  let total := colSum df.nDates df.rows
  { df := df
    counties := geo
    last_column := lastCol
    hovertext := hover
    map_fig := (df.col lastCol).map (fun z =>
      { geojson := geo
        locations := df.rows.map (fun r => r.fips)
        z := z
        colorscale := "Viridis"
        hovertext := hover })
    total_cases := total
    line_fig := { x := df.dateCols, y := total }
    line_fig_day := { x := df.dateCols, y := diffs total }
    byState := date_cases_by_state df
    byCounty := date_cases_by_county df }

/-- Failures during module initialization: a failed download of one of the
two remote resources, or a missing column. -/
inductive Err where
  | downloadFailed : String → Err
  | keyError : String → Err
deriving DecidableEq

/-- A raw CSV row before the FIPS fix: the CSV encodes FIPS numerically. -/
structure RawRow where
  admin2 : String
  province_state : String
  fips : Nat
  cases : List Int
deriving DecidableEq

/-- The raw parsed CSV. -/
structure RawDf where
  dateCols : List String
  rows : List RawRow
deriving DecidableEq

/-- The lambda x: f"{x:05.0f}" applied to the FIPS column: format the code as
a five-digit zero-padded string. -/
def padFips (n : Nat) : String :=
  let s := toString n
  String.mk (List.replicate (5 - s.length) '0') ++ s

/-- df["FIPS"] = df["FIPS"].apply(lambda x: f"{x:05.0f}"). -/
def fipsFix (raw : RawDf) : Df :=
  { dateCols := raw.dateCols
    rows := raw.rows.map (fun r =>
      { admin2 := r.admin2, province_state := r.province_state
        fips := padFips r.fips, cases := r.cases }) }

/-- Module initialization of dash_app.py, top to bottom: read the CSV, fix
the FIPS column, read the geojson, then build every module-level aggregate
and figure.  There is no try/except anywhere, so a failed read propagates
out as the error of the whole initialization and no ModuleState is built. -/
def initModule (csvRes : Except Err RawDf) (geoRes : Except Err Geo) : Except Err ModuleState := do
  let raw ← csvRes
  let df := fipsFix raw
  let counties ← geoRes
  match df.col df.last_column with
  | none => Except.error (Err.keyError df.last_column)
  | some _ => pure (mkModuleState df counties)

/-- Side effects a callback body can perform besides returning its value:
print statements and (hypothetically) downloads.  The callbacks only print;
downloads happen solely at module initialization. -/
inductive Eff where
  | print : String → Eff
  | download : String → Eff
deriving DecidableEq

/-- Whether a list of effects contains a download. -/
def hasDownload (effs : List Eff) : Bool :=
  effs.any (fun e => match e with | Eff.download _ => true | _ => false)

/-- A dropdown value as Dash may deliver it to update_county_selector: None,
a single string, or a list of strings (the state selector's value is set by
update_state_selector to an array of states). -/
inductive SelVal where
  | none : SelVal
  | str : String → SelVal
  | list : List String → SelVal
deriving DecidableEq

/-- A dropdown option dictionary with a label and a value. -/
structure SelOption where
  label : String
  value : String
deriving DecidableEq

/-- get_county_selections(state): the county options for the dropdown; when
state is neither None nor the empty string, the unique counties of the rows
of that state, otherwise the unique counties of the whole table. -/
def get_county_selections (df : Df) (state : Option String) : List SelOption :=
  match state with
  | some st =>
    if st ≠ "" then
      (uniqueFirst ((df.rows.filter (fun r => r.province_state == st)).map (fun r => r.admin2))).map
        (fun c => { label := c, value := c })
    else
      (uniqueFirst (df.rows.map (fun r => r.admin2))).map (fun c => { label := c, value := c })
  | none => (uniqueFirst (df.rows.map (fun r => r.admin2))).map (fun c => { label := c, value := c })

/-- get_state_from_county(county): None for None, otherwise the unique
Province_State values of the rows whose Admin2 equals the county. -/
def get_state_from_county (df : Df) (county : Option String) : Option (List String) :=
  match county with
  | none => none
  | some c => some (uniqueFirst ((df.rows.filter (fun r => r.admin2 == c)).map (fun r => r.province_state)))

/-- Callback update_county_selector(state): if the input is a list take its
first element (an empty list is an IndexError, modelled as no result), print,
and return get_county_selections of it.  The callback reads the module state
and returns it untouched together with its effects and its output. -/
def update_county_selector (s : ModuleState) (state : SelVal) :
    ModuleState × List Eff × Option (List SelOption) :=
  match state with
  | SelVal.none => (s, [Eff.print ("update_county_selector")], some (get_county_selections s.df Option.none))
  | SelVal.str v => (s, [Eff.print ("update_county_selector")], some (get_county_selections s.df (some v)))
  | SelVal.list [] => (s, [], Option.none)
  | SelVal.list (v :: _) => (s, [Eff.print ("update_county_selector")], some (get_county_selections s.df (some v)))

/-- Callback update_state_selector(county): print, then return
get_state_from_county(county). -/
def update_state_selector (s : ModuleState) (county : Option String) :
    ModuleState × List Eff × Option (List String) :=
  (s, [Eff.print ("update_state_selector")], get_state_from_county s.df county)

/-- Callback update_map_fig(county, state): rebuilds a choropleth from the
loaded data with z the hard-coded column 10/2/20; the county and state
arguments are never used in the body. -/
def update_map_fig (s : ModuleState) (county state : Option String) :
    ModuleState × List Eff × Option MapFig :=
  (s, [], (s.df.col ("10/2/20")).map (fun z =>
    { geojson := s.counties
      locations := s.df.rows.map (fun r => r.fips)
      z := z
      colorscale := "Viridis"
      hovertext := s.hovertext }))

/-- Callback update_line_fig(county, state): when both are None, the national
column-wise total; when only the state is given, the column of the
precomputed by-state table; when a county is given, the column of the
precomputed by-county table.  Each case yields the cumulative line figure
and the daily-difference line figure; a missing key is a KeyError, modelled
as no result. -/
def update_line_fig (s : ModuleState) (county state : Option String) :
    ModuleState × List Eff × Option (LineFig × LineFig) :=
  match county, state with
  | none, none =>
    let total := colSum s.df.nDates s.df.rows
    (s, [], some ({ x := s.df.dateCols, y := total }, { x := s.df.dateCols, y := diffs total }))
  | none, some st =>
    match tableLookup s.byState st with
    | none => (s, [], Option.none)
    | some data =>
      (s, [], some ({ x := s.df.dateCols, y := data }, { x := s.df.dateCols, y := diffs data }))
  | some c, _ =>
    match tableLookup s.byCounty c with
    | none => (s, [], Option.none)
    | some data =>
      (s, [], some ({ x := s.df.dateCols, y := data }, { x := s.df.dateCols, y := diffs data }))

/-- The kind of component property a registered callback recomputes. -/
inductive OutputKind where
  | figure : OutputKind
  | figurePair : OutputKind
  | dropdownOptions : OutputKind
  | dropdownValue : OutputKind
deriving DecidableEq

/-- One @app.callback registration: the function name and what it outputs. -/
structure CallbackReg where
  name : String
  outKind : OutputKind
deriving DecidableEq

/-- The @app.callback registrations of dash_app.py, in source order:
update_county_selector outputs the county dropdown's options,
update_state_selector outputs the state dropdown's value, update_map_fig
outputs the map figure, update_line_fig outputs the two line figures. -/
def registeredCallbacks : List CallbackReg :=
  [ { name := "update_county_selector", outKind := OutputKind.dropdownOptions }
  , { name := "update_state_selector", outKind := OutputKind.dropdownValue }
  , { name := "update_map_fig", outKind := OutputKind.figure }
  , { name := "update_line_fig", outKind := OutputKind.figurePair } ]

/-- Whether a registration recomputes a figure. -/
def recomputesFigure : OutputKind → Bool
  | OutputKind.figure => true
  | OutputKind.figurePair => true
  | _ => false

/-- The dataframe-library operations dash_app.py applies to the loaded
table: group-by sum, column-wise sum, cumulative sum (never actually used),
consecutive difference, sort-then-head, unique values, boolean equality
filter, elementwise apply-format, column selection (single columns and the
loc column slice), elementwise string concatenation of two columns, the
transpose of a table, and plain row iteration. -/
inductive TableOp where
  | groupBySum : TableOp
  | columnSum : TableOp
  | cumulativeSum : TableOp
  | consecutiveDiff : TableOp
  | sortValuesHead : TableOp
  | uniqueValues : TableOp
  | filterByEq : TableOp
  | applyFormat : TableOp
  | columnSelect : TableOp
  | elementwiseConcat : TableOp
  | transpose : TableOp
  | rowIterate : TableOp
deriving DecidableEq

/-- The operations the program actually performs on the table, in order of
first appearance in dash_app.py: the FIPS apply-format, column selections
(including the loc slices of the date columns), the elementwise
concatenation of Admin2 and Province_State building hovertext, the
column-wise sums of total_cases and update_line_fig, the consecutive
differences of the daily charts, the two group-by sums and the transpose of
their tables, the equality filters and unique-value extractions of the
selector helpers, the sort_values().head(n) of get_top_counties_cards, and
the iterrows traversal rendering its cards. -/
def programTableOps : List TableOp :=
  [ TableOp.applyFormat
  , TableOp.columnSelect
  , TableOp.elementwiseConcat
  , TableOp.columnSum
  , TableOp.consecutiveDiff
  , TableOp.groupBySum
  , TableOp.transpose
  , TableOp.filterByEq
  , TableOp.uniqueValues
  , TableOp.sortValuesHead
  , TableOp.rowIterate ]

/-- Whether an operation is a group-by aggregation or a cumulative sum. -/
def isGroupByOrCumSum : TableOp → Bool
  | TableOp.groupBySum => true
  | TableOp.cumulativeSum => true
  | _ => false

/-- The two WSGI applications wired in wsgi.py: the plain Flask web app
(the default of the dispatcher) and the dashboard's underlying server. -/
inductive WebApp where
  | flaskApp : WebApp
  | dashServer : WebApp
deriving DecidableEq

/-- script.rsplit("/", 1) on a character list: some (before, after) splitting
at the last slash, none when the list has no slash. -/
def lastSplit : List Char → Option (List Char × List Char)
  | [] => none
  | c :: cs =>
    match lastSplit cs with
    | some (b, a) => some (c :: b, a)
    | none => if c = '/' then some ([], cs) else none

/-- The mount-matching loop of werkzeug's DispatcherMiddleware for a single
mount: starting from the full path it tests the current script against the
mount and, while a slash remains, strips the last path segment and retries;
the final slashless script is still looked up once.  The fuel argument
bounds the number of strips; the path's length is always enough. -/
def hitsMountAux (m : List Char) : Nat → List Char → Bool
  | 0, script => script == m
  | fuel + 1, script =>
    if script == m then true
    else
      match lastSplit script with
      | some (b, _) => hitsMountAux m fuel b
      | none => false

/-- Whether DispatcherMiddleware matches the path against the mount. -/
def wkDispatch (m : List Char) (path : List Char) : Bool :=
  hitsMountAux m path.length path

/-- application = DispatcherMiddleware(flask_app, {'/dash': app.server}):
requests matching the '/dash' mount go to the dashboard's server, all others
to the plain Flask app.  The flask_app module is not under src/, so the
default application is represented only by its label. -/
def application (path : String) : WebApp :=
  if wkDispatch ("/dash").data path.data then WebApp.dashServer else WebApp.flaskApp

/-- A small concrete geojson value for evaluating the definitions. -/
def sampleGeo : Geo := { raw := "geo" }

/-- A small concrete table with three date columns and three rows (two
states; the county name Cook occurs in both) for evaluating the
definitions. -/
def sampleDf : Df :=
  { dateCols := ["1/22/20", "1/23/20", "1/24/20"]
    rows :=
      [ { admin2 := "Cook", province_state := "Illinois", fips := "17031", cases := [1, 2, 4] }
      , { admin2 := "DuPage", province_state := "Illinois", fips := "17043", cases := [0, 1, 1] }
      , { admin2 := "Cook", province_state := "Minnesota", fips := "27031", cases := [2, 2, 3] } ] }

/-- Looking a key up in an association list built by pairing each element of
a list with a function of it finds the function's value exactly when the key
is in the list. -/
theorem tableLookup_map (g : String → List Int) (l : List String) (s : String) :
    tableLookup (l.map (fun x => (x, g x))) s = if s ∈ l then some (g s) else none := by
  induction l with
  | nil => rfl
  | cons x xs ih =>
    by_cases hx : x = s
    · subst hx
      simp [tableLookup, List.find?_cons_of_pos]
    · have hbeq : ((x, g x).1 == s) = false := by simp [hx]
      simp only [List.map_cons, tableLookup, List.find?_cons_of_neg, hbeq, Bool.false_eq_true,
        not_false_eq_true]
      rw [show (List.find? (fun p => p.1 == s) (List.map (fun x => (x, g x)) xs)).map (fun p => p.2) =
        tableLookup (xs.map (fun x => (x, g x))) s from rfl]
      rw [ih]
      simp [List.mem_cons, hx, Ne.symm hx]

/-- colSum always returns one total per date column. -/
theorem colSum_length (n : Nat) (rows : List Row) : (colSum n rows).length = n := by
  simp [colSum]

/-- The daily-difference series is one element shorter than its input. -/
theorem diffs_length (l : List Int) : (diffs l).length = l.length - 1 := by
  simp [diffs]

/-- diffs on a list with at least two elements peels off the first
difference. -/
theorem diffs_cons2 (a b : Int) (t : List Int) :
    diffs (a :: b :: t) = (b - a) :: diffs (b :: t) := by
  simp [diffs]

/-- Each entry of the daily-difference series is the difference of two
consecutive entries of the input series. -/
theorem diffs_getD : ∀ (l : List Int) (i : Nat), i + 1 < l.length →
    (diffs l).getD i 0 = l.getD (i + 1) 0 - l.getD i 0
  | [], i, h => by simp at h
  | [a], i, h => by simp at h
  | a :: b :: t, 0, h => by simp [diffs_cons2]
  | a :: b :: t, i + 1, h => by
    rw [diffs_cons2]
    have ih := diffs_getD (b :: t) i (by simpa using h)
    simpa using ih

/-- The national branch of update_line_fig returns the column-wise totals
and their daily differences over the full set of dates. -/
theorem update_line_fig_none_none (s : ModuleState) :
    (update_line_fig s Option.none Option.none).2.2 =
      some ({ x := s.df.dateCols, y := colSum s.df.nDates s.df.rows },
            { x := s.df.dateCols, y := diffs (colSum s.df.nDates s.df.rows) }) := rfl

/-- The state branch of update_line_fig looks the state up in the by-state
table and turns its series into the two line figures. -/
theorem update_line_fig_state (s : ModuleState) (st : String) :
    (update_line_fig s Option.none (some st)).2.2 =
      (tableLookup s.byState st).map (fun data =>
        ({ x := s.df.dateCols, y := data }, { x := s.df.dateCols, y := diffs data })) := by
  cases h : tableLookup s.byState st <;> simp [update_line_fig, h]

/-- The county branch of update_line_fig looks the county up in the
by-county table and turns its series into the two line figures, for every
value of the state argument. -/
theorem update_line_fig_county (s : ModuleState) (c : String) (state : Option String) :
    (update_line_fig s (some c) state).2.2 =
      (tableLookup s.byCounty c).map (fun data =>
        ({ x := s.df.dateCols, y := data }, { x := s.df.dateCols, y := diffs data })) := by
  cases h : tableLookup s.byCounty c <;> simp [update_line_fig, h]

/-- Whenever update_line_fig on the freshly built module state returns a
pair of figures, both share the date columns as x values, the first carries
some series of one value per date, and the second carries the daily
differences of that series. -/
theorem update_line_fig_shape (df : Df) (geo : Geo) (county state : Option String)
    (fig figDay : LineFig)
    (hsome : (update_line_fig (mkModuleState df geo) county state).2.2 = some (fig, figDay)) :
    ∃ data : List Int, data.length = df.nDates
      ∧ fig = { x := df.dateCols, y := data }
      ∧ figDay = { x := df.dateCols, y := diffs data } := by
  cases county with
  | some c =>
    rw [update_line_fig_county] at hsome
    rw [show (mkModuleState df geo).byCounty =
      (countiesOf df).map (fun x => (x, colSum df.nDates (df.rows.filter (fun r => r.admin2 == x)))) from rfl] at hsome
    rw [tableLookup_map] at hsome
    by_cases hc : c ∈ countiesOf df
    · rw [if_pos hc] at hsome
      simp only [Option.map_some', Option.some.injEq, Prod.mk.injEq] at hsome
      exact ⟨colSum df.nDates (df.rows.filter (fun r => r.admin2 == c)),
        colSum_length _ _, hsome.1.symm, hsome.2.symm⟩
    · rw [if_neg hc] at hsome
      exact Option.noConfusion hsome
  | none =>
    cases state with
    | none =>
      rw [update_line_fig_none_none] at hsome
      simp only [Option.some.injEq, Prod.mk.injEq] at hsome
      exact ⟨colSum df.nDates df.rows, colSum_length _ _, hsome.1.symm, hsome.2.symm⟩
    | some st =>
      rw [update_line_fig_state] at hsome
      rw [show (mkModuleState df geo).byState =
        (statesOf df).map (fun x => (x, colSum df.nDates (df.rows.filter (fun r => r.province_state == x)))) from rfl] at hsome
      rw [tableLookup_map] at hsome
      by_cases hst : st ∈ statesOf df
      · rw [if_pos hst] at hsome
        simp only [Option.map_some', Option.some.injEq, Prod.mk.injEq] at hsome
        exact ⟨colSum df.nDates (df.rows.filter (fun r => r.province_state == st)),
          colSum_length _ _, hsome.1.symm, hsome.2.symm⟩
      · rw [if_neg hst] at hsome
        exact Option.noConfusion hsome

/-- Every branch of update_line_fig leaves the module state untouched and
performs no effect at all. -/
theorem update_line_fig_frame (s : ModuleState) (county state : Option String) :
    (update_line_fig s county state).1 = s ∧ (update_line_fig s county state).2.1 = ([] : List Eff) := by
  cases county with
  | some c =>
    constructor <;> (simp only [update_line_fig]; cases tableLookup s.byCounty c <;> rfl)
  | none =>
    cases state with
    | none => exact ⟨rfl, rfl⟩
    | some st =>
      constructor <;> (simp only [update_line_fig]; cases tableLookup s.byState st <;> rfl)

/-- Every option built by get_county_selections has its label equal to its
value. -/
theorem get_county_selections_label (df : Df) (st : Option String) :
    ∀ o ∈ get_county_selections df st, o.label = o.value := by
  intro o ho
  cases st with
  | none =>
    simp only [get_county_selections, List.mem_map] at ho
    obtain ⟨c, -, rfl⟩ := ho
    rfl
  | some st =>
    by_cases hst : st ≠ ""
    · simp only [get_county_selections, if_pos hst, List.mem_map] at ho
      obtain ⟨c, -, rfl⟩ := ho
      rfl
    · simp only [get_county_selections, if_neg hst, List.mem_map] at ho
      obtain ⟨c, -, rfl⟩ := ho
      rfl

/-- C1, counterexample: the claim that update_map_fig returns different
figures for some two distinct (county, state) selections is false.  The
callback ignores both arguments: as a function it equals its own restriction
to the (None, None) selection, so the two distinct concrete selections shown
here produce identical results on the sample state. -/
theorem C1_counterexample :
    update_map_fig (mkModuleState sampleDf sampleGeo) (some ("Cook")) (some ("Illinois")) =
      update_map_fig (mkModuleState sampleDf sampleGeo) Option.none Option.none
  ∧ ((some ("Cook") : Option String), (some ("Illinois") : Option String)) ≠
      ((Option.none : Option String), (Option.none : Option String))
  ∧ update_map_fig = (fun s _ _ => update_map_fig s Option.none Option.none) :=
  ⟨rfl, by decide, rfl⟩

/-- C1, amended: update_map_fig recomputes the choropleth from the loaded
data alone (geojson, FIPS locations, hovertext, and the hard-coded 10/2/20
column as z); its result is independent of the (county, state) selection, so
the map figure does not change with the user's selection. -/
theorem C1_map_fig_constant (s : ModuleState) (county state county' state' : Option String) :
    update_map_fig s county state = update_map_fig s county' state'
  ∧ (update_map_fig s county state).2.2 =
      (s.df.col ("10/2/20")).map (fun z =>
        { geojson := s.counties
          locations := s.df.rows.map (fun r => r.fips)
          z := z
          colorscale := "Viridis"
          hovertext := s.hovertext }) :=
  ⟨rfl, rfl⟩

/-- C3, counterexample: the claim that exactly three callback functions are
wired, each recomputing a figure, is false.  dash_app.py registers four
callbacks, and update_county_selector recomputes dropdown options, not a
figure. -/
theorem C3_counterexample :
    registeredCallbacks.length = 4
  ∧ registeredCallbacks.length ≠ 3
  ∧ ({ name := "update_county_selector", outKind := OutputKind.dropdownOptions } : CallbackReg) ∈
      registeredCallbacks
  ∧ recomputesFigure OutputKind.dropdownOptions = false := by
  decide

/-- C3, amended: the dashboard wires exactly four reactive callback
functions; update_map_fig and update_line_fig recompute figures from the
already-loaded data, while update_county_selector recomputes the county
dropdown's options and update_state_selector recomputes the state dropdown's
value. -/
theorem C3_four_callbacks :
    registeredCallbacks.length = 4
  ∧ registeredCallbacks.map (fun cb => cb.outKind) =
      [OutputKind.dropdownOptions, OutputKind.dropdownValue, OutputKind.figure, OutputKind.figurePair]
  ∧ (registeredCallbacks.filter (fun cb => recomputesFigure cb.outKind)).map (fun cb => cb.name) =
      ["update_map_fig", "update_line_fig"] := by
  decide

/-- C4, counterexample: the claim that every computation over the loaded
table is a group-by or cumulative-sum aggregation is false: the program
sorts the table by its last column and takes the head (get_top_counties_cards),
which is neither. -/
theorem C4_counterexample :
    TableOp.sortValuesHead ∈ programTableOps
  ∧ isGroupByOrCumSum TableOp.sortValuesHead = false := by
  decide

/-- C4, amended: every computation the program performs over the loaded
table is one of the simple dataframe-library operations apply-format, column
selection, elementwise concatenation of two columns, column-wise sum,
consecutive difference, group-by sum, transpose, equality filter,
unique-value extraction, sort-then-head and row iteration; group-by sums and
column sums occur, as do the hovertext concatenation, the transpose of the
group-by tables and the sort-then-head, but no cumulative sum is ever
computed. -/
theorem C4_table_ops :
    programTableOps.all (fun op =>
      op ∈ [TableOp.applyFormat, TableOp.columnSelect, TableOp.elementwiseConcat,
            TableOp.columnSum, TableOp.consecutiveDiff, TableOp.groupBySum, TableOp.transpose,
            TableOp.filterByEq, TableOp.uniqueValues, TableOp.sortValuesHead,
            TableOp.rowIterate]) = true
  ∧ TableOp.cumulativeSum ∉ programTableOps
  ∧ TableOp.groupBySum ∈ programTableOps
  ∧ TableOp.columnSum ∈ programTableOps
  ∧ TableOp.elementwiseConcat ∈ programTableOps
  ∧ TableOp.transpose ∈ programTableOps
  ∧ TableOp.sortValuesHead ∈ programTableOps := by
  decide

/-- C6: there is no error handling for failed downloads.  If reading the
remote CSV fails, module initialization evaluates to that very error no
matter what the geojson read would give, and if the CSV read succeeds but
the geojson read fails, initialization evaluates to that error; in both
cases no ModuleState (no half-built in-memory state) is produced. -/
theorem C6_no_error_handling :
    (∀ (e : Err) (geoRes : Except Err Geo), initModule (Except.error e) geoRes = Except.error e)
  ∧ (∀ (e : Err) (raw : RawDf), initModule (Except.ok raw) (Except.error e) = Except.error e) :=
  ⟨fun _ _ => rfl, fun _ _ => rfl⟩

/-- C7: every callback recomputes its output from the already-loaded module
state only: for every input each of the four callbacks returns the module
state unchanged (so the dataframe, the by-state and by-county tables and the
counties geojson are not modified) and performs no download. -/
theorem C7_callbacks_frame (s : ModuleState) (v : SelVal) (county state : Option String) :
    ((update_county_selector s v).1 = s ∧ hasDownload (update_county_selector s v).2.1 = false)
  ∧ ((update_state_selector s county).1 = s ∧ hasDownload (update_state_selector s county).2.1 = false)
  ∧ ((update_map_fig s county state).1 = s ∧ hasDownload (update_map_fig s county state).2.1 = false)
  ∧ ((update_line_fig s county state).1 = s ∧ hasDownload (update_line_fig s county state).2.1 = false) := by
  refine ⟨?_, ⟨rfl, rfl⟩, ⟨rfl, rfl⟩, ?_⟩
  · cases v with
    | none => exact ⟨rfl, rfl⟩
    | str w => exact ⟨rfl, rfl⟩
    | list l => cases l with
      | nil => exact ⟨rfl, rfl⟩
      | cons a t => exact ⟨rfl, rfl⟩
  · obtain ⟨h1, h2⟩ := update_line_fig_frame s county state
    rw [h1, h2]
    exact ⟨rfl, rfl⟩

/-- C8: in update_line_fig the county selection takes precedence over the
state selection: for every county the result is the same whatever the state
input is, and the returned figures are built from the looked-up column of
date_cases_by_county. -/
theorem C8_county_precedence (df : Df) (geo : Geo) (c : String) (state state' : Option String) :
    update_line_fig (mkModuleState df geo) (some c) state =
      update_line_fig (mkModuleState df geo) (some c) state'
  ∧ (update_line_fig (mkModuleState df geo) (some c) state).2.2 =
      (tableLookup (date_cases_by_county df) c).map (fun data =>
        ({ x := df.dateCols, y := data }, { x := df.dateCols, y := diffs data })) :=
  ⟨rfl, update_line_fig_county (mkModuleState df geo) c state⟩

/-- The property claimed of the two line charts: on the fresh module state,
update_line_fig returns the national column-wise sum over the date columns
when both selections are None, the per-date group-by sum of the given state
when only the state is given, and the per-date group-by sum of the given
county when a county is given, each together with its daily-difference
chart. -/
def lineChartsSpec (df : Df) (geo : Geo) (st c : String) (state' : Option String) : Prop :=
  (update_line_fig (mkModuleState df geo) Option.none Option.none).2.2 =
      some ({ x := df.dateCols, y := colSum df.nDates df.rows },
            { x := df.dateCols, y := diffs (colSum df.nDates df.rows) })
  ∧ (update_line_fig (mkModuleState df geo) Option.none (some st)).2.2 =
      some ({ x := df.dateCols, y := colSum df.nDates (df.rows.filter (fun r => r.province_state == st)) },
            { x := df.dateCols, y := diffs (colSum df.nDates (df.rows.filter (fun r => r.province_state == st))) })
  ∧ (update_line_fig (mkModuleState df geo) (some c) state').2.2 =
      some ({ x := df.dateCols, y := colSum df.nDates (df.rows.filter (fun r => r.admin2 == c)) },
            { x := df.dateCols, y := diffs (colSum df.nDates (df.rows.filter (fun r => r.admin2 == c))) })

/-- C2: the line charts update reactively with the selection as claimed: the
national column-wise sum when nothing is selected, the group-by sum of the
selected state when only a state is selected (for a state occurring in the
table; otherwise the lookup is a KeyError), and the group-by sum of the
selected county when a county is selected (likewise). -/
theorem C2_line_charts (df : Df) (geo : Geo) (st c : String) (state' : Option String)
    (hst : st ∈ statesOf df) (hc : c ∈ countiesOf df) :
    lineChartsSpec df geo st c state' := by
  refine ⟨update_line_fig_none_none _, ?_, ?_⟩
  · rw [update_line_fig_state]
    rw [show (mkModuleState df geo).byState =
      (statesOf df).map (fun x => (x, colSum df.nDates (df.rows.filter (fun r => r.province_state == x)))) from rfl]
    rw [tableLookup_map, if_pos hst]
    rfl
  · rw [update_line_fig_county]
    rw [show (mkModuleState df geo).byCounty =
      (countiesOf df).map (fun x => (x, colSum df.nDates (df.rows.filter (fun r => r.admin2 == x)))) from rfl]
    rw [tableLookup_map, if_pos hc]
    rfl

/-- C2, witness: on the sample table, Illinois is a state and Cook a county
of the table, and the claimed behaviour holds for them. -/
theorem C2_witness :
    ("Illinois" ∈ statesOf sampleDf) ∧ ("Cook" ∈ countiesOf sampleDf)
  ∧ lineChartsSpec sampleDf sampleGeo ("Illinois") ("Cook") (some ("Minnesota")) :=
  ⟨by decide, by decide,
    C2_line_charts sampleDf sampleGeo ("Illinois") ("Cook") (some ("Minnesota")) (by decide) (by decide)⟩

/-- The property claimed of every daily-new-cases chart relative to its
cumulative chart: same x series, a y series exactly one element shorter than
the x series, and each y entry the difference of two consecutive cumulative
entries. -/
def dayChartOk (fig figDay : LineFig) : Prop :=
  figDay.x = fig.x
  ∧ figDay.y.length + 1 = figDay.x.length
  ∧ ∀ i : Nat, i + 1 < fig.y.length →
      figDay.y.getD i 0 = fig.y.getD (i + 1) 0 - fig.y.getD i 0

/-- A daily chart built as diffs of a series with one value per date
satisfies dayChartOk. -/
theorem dayChartOk_of (dates : List String) (data : List Int)
    (hlen : data.length = dates.length) (hne : dates ≠ []) :
    dayChartOk { x := dates, y := data } { x := dates, y := diffs data } := by
  refine ⟨rfl, ?_, ?_⟩
  · show (diffs data).length + 1 = dates.length
    rw [diffs_length, hlen]
    have hpos : 0 < dates.length := List.length_pos.mpr hne
    omega
  · intro i hi
    exact diffs_getD data i hi

/-- C9: in every daily-new-cases chart (the module-level one and the one
returned by update_line_fig in each of its cases) the y series consists of
the consecutive differences of the cumulative series, y[i] =
total[i+1] - total[i], and has exactly one fewer element than the x series
of dates passed alongside it. -/
theorem C9_daily_differences (df : Df) (geo : Geo) (county state : Option String)
    (hne : df.dateCols ≠ []) (fig figDay : LineFig)
    (hsome : (update_line_fig (mkModuleState df geo) county state).2.2 = some (fig, figDay)) :
    dayChartOk (mkModuleState df geo).line_fig (mkModuleState df geo).line_fig_day
  ∧ dayChartOk fig figDay := by
  constructor
  · exact dayChartOk_of df.dateCols (colSum df.nDates df.rows) (colSum_length _ _) hne
  · obtain ⟨data, hlen, hfig, hday⟩ := update_line_fig_shape df geo county state fig figDay hsome
    subst hfig
    subst hday
    exact dayChartOk_of df.dateCols data hlen hne

/-- C9, witness: on the sample table the national charts are [3, 5, 8] and
its differences [2, 3], and the claimed shape holds for them. -/
theorem C9_witness :
    (sampleDf.dateCols ≠ []
      ∧ (update_line_fig (mkModuleState sampleDf sampleGeo) Option.none Option.none).2.2 =
          some ({ x := sampleDf.dateCols, y := [3, 5, 8] }, { x := sampleDf.dateCols, y := [2, 3] }))
  ∧ (dayChartOk (mkModuleState sampleDf sampleGeo).line_fig (mkModuleState sampleDf sampleGeo).line_fig_day
      ∧ dayChartOk { x := sampleDf.dateCols, y := [3, 5, 8] } { x := sampleDf.dateCols, y := [2, 3] }) :=
  ⟨⟨by decide, by decide⟩,
    C9_daily_differences sampleDf sampleGeo Option.none Option.none (by decide)
      { x := sampleDf.dateCols, y := [3, 5, 8] } { x := sampleDf.dateCols, y := [2, 3] } (by decide)⟩

/-- The property claimed of update_county_selector for a non-empty state
name: a string input or a list input headed by that name yields exactly the
unique county names of that state's rows, in first-occurrence order, each as
an option with equal label and value; a None input, an empty-string input,
or a list headed by the empty string yields the unique county names of the
whole table; and every returned option has its label equal to its value. -/
def countySelectorSpec (df : Df) (geo : Geo) (s' : String) (rest : List String) : Prop :=
  (update_county_selector (mkModuleState df geo) (SelVal.str s')).2.2 =
      some ((uniqueFirst ((df.rows.filter (fun r => r.province_state == s')).map (fun r => r.admin2))).map
        (fun c => ({ label := c, value := c } : SelOption)))
  ∧ (update_county_selector (mkModuleState df geo) (SelVal.list (s' :: rest))).2.2 =
      some ((uniqueFirst ((df.rows.filter (fun r => r.province_state == s')).map (fun r => r.admin2))).map
        (fun c => ({ label := c, value := c } : SelOption)))
  ∧ (update_county_selector (mkModuleState df geo) SelVal.none).2.2 =
      some ((countiesOf df).map (fun c => ({ label := c, value := c } : SelOption)))
  ∧ (update_county_selector (mkModuleState df geo) (SelVal.str (""))).2.2 =
      some ((countiesOf df).map (fun c => ({ label := c, value := c } : SelOption)))
  ∧ (update_county_selector (mkModuleState df geo) (SelVal.list ("" :: rest))).2.2 =
      some ((countiesOf df).map (fun c => ({ label := c, value := c } : SelOption)))
  ∧ ∀ (v : SelVal) (opts : List SelOption),
      (update_county_selector (mkModuleState df geo) v).2.2 = some opts →
        ∀ o ∈ opts, o.label = o.value

/-- C10: update_county_selector returns exactly the unique county names of
the given state when the argument is a non-empty string or a list headed by
one (taking the first element of a list), and the unique county names of the
whole table when the argument is None or the empty string, each as an option
whose label equals its value. -/
theorem C10_county_selector (df : Df) (geo : Geo) (s' : String) (h : s' ≠ "") (rest : List String) :
    countySelectorSpec df geo s' rest := by
  refine ⟨?_, ?_, rfl, ?_, ?_, ?_⟩
  · simp [update_county_selector, get_county_selections, h]
    rfl
  · simp [update_county_selector, get_county_selections, h]
    rfl
  · simp [update_county_selector, get_county_selections, countiesOf]
    rfl
  · simp [update_county_selector, get_county_selections, countiesOf]
    rfl
  · intro v opts hv o ho
    cases v with
    | none =>
      simp only [update_county_selector, Option.some.injEq] at hv
      subst hv
      exact get_county_selections_label _ _ o ho
    | str w =>
      simp only [update_county_selector, Option.some.injEq] at hv
      subst hv
      exact get_county_selections_label _ _ o ho
    | list l =>
      cases l with
      | nil =>
        simp only [update_county_selector] at hv
        exact Option.noConfusion hv
      | cons a t =>
        simp only [update_county_selector, Option.some.injEq] at hv
        subst hv
        exact get_county_selections_label _ _ o ho

/-- C10, witness: Illinois is a non-empty state name, and the claimed
behaviour holds on the sample table with it. -/
theorem C10_witness :
    (("Illinois" : String) ≠ "") ∧ countySelectorSpec sampleDf sampleGeo ("Illinois") ["Utah"] :=
  ⟨by decide, C10_county_selector sampleDf sampleGeo ("Illinois") (by decide) ["Utah"]⟩

/-- A successful lastSplit decomposes the list at a slash. -/
theorem lastSplit_append : ∀ (l b a : List Char), lastSplit l = some (b, a) → l = b ++ '/' :: a := by
  intro l
  induction l with
  | nil => intro b a h; exact Option.noConfusion h
  | cons c cs ih =>
    intro b a h
    simp only [lastSplit] at h
    cases hcs : lastSplit cs with
    | some p =>
      obtain ⟨b', a'⟩ := p
      rw [hcs] at h
      simp only [Option.some.injEq, Prod.mk.injEq] at h
      obtain ⟨hb, ha⟩ := h
      subst hb
      subst ha
      simp [ih b' a' hcs]
    | none =>
      rw [hcs] at h
      by_cases hc : c = '/'
      · rw [if_pos hc] at h
        simp only [Option.some.injEq, Prod.mk.injEq] at h
        obtain ⟨hb, ha⟩ := h
        subst hb
        subst ha
        simp [hc]
      · rw [if_neg hc] at h
        exact Option.noConfusion h

/-- When lastSplit finds nothing, the list has no slash. -/
theorem lastSplit_none_no_slash : ∀ (l : List Char), lastSplit l = none → '/' ∉ l := by
  intro l
  induction l with
  | nil => intro _ h; simp at h
  | cons c cs ih =>
    intro h
    simp only [lastSplit] at h
    cases hcs : lastSplit cs with
    | some p => rw [hcs] at h; exact Option.noConfusion h
    | none =>
      rw [hcs] at h
      by_cases hc : c = '/'
      · rw [if_pos hc] at h; exact Option.noConfusion h
      · rw [if_neg hc] at h
        intro hmem
        rcases List.mem_cons.mp hmem with h1 | h2
        · exact hc h1.symm
        · exact ih hcs h2

/-- lastSplit splits at the last slash: the suffix has no further slash. -/
theorem lastSplit_no_slash_after : ∀ (l b a : List Char), lastSplit l = some (b, a) → '/' ∉ a := by
  intro l
  induction l with
  | nil => intro b a h; exact Option.noConfusion h
  | cons c cs ih =>
    intro b a h
    simp only [lastSplit] at h
    cases hcs : lastSplit cs with
    | some p =>
      obtain ⟨b', a'⟩ := p
      rw [hcs] at h
      simp only [Option.some.injEq, Prod.mk.injEq] at h
      obtain ⟨-, ha⟩ := h
      subst ha
      exact ih b' a' hcs
    | none =>
      rw [hcs] at h
      by_cases hc : c = '/'
      · rw [if_pos hc] at h
        simp only [Option.some.injEq, Prod.mk.injEq] at h
        obtain ⟨-, ha⟩ := h
        subst ha
        exact lastSplit_none_no_slash cs hcs
      · rw [if_neg hc] at h
        exact Option.noConfusion h

/-- The script shrinks at every strip of the dispatcher loop. -/
theorem lastSplit_length (l b a : List Char) (h : lastSplit l = some (b, a)) :
    b.length < l.length := by
  have := lastSplit_append l b a h
  subst this
  simp

/-- A list containing a slash always splits. -/
theorem lastSplit_isSome_of_slash (l : List Char) (h : '/' ∈ l) :
    ∃ b a, lastSplit l = some (b, a) := by
  cases hls : lastSplit l with
  | none => exact absurd h (lastSplit_none_no_slash l hls)
  | some p =>
    obtain ⟨b, a⟩ := p
    exact ⟨b, a, rfl⟩

/-- If the dispatcher loop matches the mount, the path was the mount itself
or extended it at a slash boundary. -/
theorem hitsMountAux_true (m : List Char) :
    ∀ (fuel : Nat) (script : List Char), hitsMountAux m fuel script = true →
      script = m ∨ ∃ rest, script = m ++ '/' :: rest := by
  intro fuel
  induction fuel with
  | zero =>
    intro script h
    exact Or.inl (by simpa [hitsMountAux] using h)
  | succ fuel ih =>
    intro script h
    simp only [hitsMountAux] at h
    by_cases hm : script = m
    · exact Or.inl hm
    · rw [if_neg (by simpa using hm)] at h
      cases hls : lastSplit script with
      | none => rw [hls] at h; exact Bool.noConfusion h
      | some p =>
        obtain ⟨b, a⟩ := p
        rw [hls] at h
        have happ := lastSplit_append script b a hls
        rcases ih b h with hb | ⟨r, hb⟩
        · subst hb
          exact Or.inr ⟨a, happ⟩
        · subst hb
          refine Or.inr ⟨r ++ '/' :: a, ?_⟩
          rw [happ]
          simp

/-- The loop accepts the mount itself at any fuel. -/
theorem hitsMountAux_self (m : List Char) (fuel : Nat) : hitsMountAux m fuel m = true := by
  cases fuel <;> simp [hitsMountAux]

/-- With enough fuel the loop accepts every path that extends the mount at a
slash boundary: stripping the last segment eventually reaches the mount. -/
theorem hitsMountAux_of_boundary (m : List Char) :
    ∀ (fuel : Nat) (script rest : List Char), script = m ++ '/' :: rest →
      script.length ≤ fuel + m.length → hitsMountAux m fuel script = true := by
  intro fuel
  induction fuel with
  | zero =>
    intro script rest hs hlen
    exfalso
    subst hs
    simp at hlen
  | succ fuel ih =>
    intro script rest hs hlen
    simp only [hitsMountAux]
    by_cases hm : script = m
    · rw [if_pos (by simpa using hm)]
    · rw [if_neg (by simpa using hm)]
      have hslash : '/' ∈ script := by
        subst hs
        simp
      obtain ⟨b, a, hls⟩ := lastSplit_isSome_of_slash script hslash
      rw [hls]
      have happ := lastSplit_append script b a hls
      have hnos := lastSplit_no_slash_after script b a hls
      have hdec : b ++ '/' :: a = m ++ '/' :: rest := by rw [← happ, hs]
      have hblen : b.length < script.length := lastSplit_length script b a hls
      rcases List.append_eq_append_iff.mp hdec with ⟨t, hm1, hm2⟩ | ⟨t, hb1, hb2⟩
      · cases t with
        | nil =>
          have hbm : b = m := by simpa using hm1.symm
          subst hbm
          exact hitsMountAux_self b fuel
        | cons c0 t' =>
          exfalso
          simp only [List.cons_append, List.cons.injEq] at hm2
          exact hnos (hm2.2 ▸ List.mem_append_right t' (List.mem_cons_self _ _))
      · cases t with
        | nil =>
          have hbm : b = m := by simpa using hb1
          subst hbm
          exact hitsMountAux_self b fuel
        | cons c0 t' =>
          simp only [List.cons_append, List.cons.injEq] at hb2
          obtain ⟨hc0, -⟩ := hb2
          refine ih b t' ?_ ?_
          · rw [hb1, ← hc0]
          · subst hs
            simp only [List.length_append] at hblen hlen ⊢
            omega

/-- The dispatcher matches the mount exactly on the mount itself and on
paths extending it at a slash boundary. -/
theorem wkDispatch_iff (m path : List Char) :
    wkDispatch m path = true ↔ path = m ∨ ∃ rest, path = m ++ '/' :: rest := by
  constructor
  · exact hitsMountAux_true m path.length path
  · intro h
    rcases h with h1 | ⟨rest, h2⟩
    · rw [h1]
      exact hitsMountAux_self m m.length
    · exact hitsMountAux_of_boundary m path.length path rest h2 (by omega)

/-- C5, counterexample: the claim that every request whose path starts with
'/dash' goes to the dashboard's server is false: the path /dashboard starts
with /dash as a string yet the dispatcher sends it to the plain Flask app,
because werkzeug's DispatcherMiddleware only matches mounts at path-segment
boundaries. -/
theorem C5_counterexample :
    ("/dashboard").data = ("/dash").data ++ ("board").data
  ∧ application ("/dashboard") = WebApp.flaskApp
  ∧ WebApp.flaskApp ≠ WebApp.dashServer := by
  refine ⟨by decide, by decide, by decide⟩

/-- C5, amended: the WSGI dispatcher routes a request to the dashboard's
server exactly when its path is '/dash' itself or continues '/dash' with a
slash (a path-segment boundary); every other request, including paths such
as /dashboard that merely begin with the characters '/dash', goes to the
plain Flask web app. -/
theorem C5_dispatch (p : String) :
    application p = WebApp.dashServer ↔
      (p = ("/dash" : String) ∨ ∃ rest : List Char, p.data = ("/dash").data ++ '/' :: rest) := by
  unfold application
  constructor
  · intro h
    by_cases hw : wkDispatch ("/dash").data p.data = true
    · rcases (wkDispatch_iff ("/dash").data p.data).mp hw with h1 | h2
      · left
        cases p with
        | mk l => exact congrArg String.mk h1
      · right
        exact h2
    · rw [if_neg hw] at h
      exact absurd h (by decide)
  · intro h
    have hw : wkDispatch ("/dash").data p.data = true := by
      apply (wkDispatch_iff ("/dash").data p.data).mpr
      rcases h with h1 | h2
      · left
        rw [h1]
      · right
        exact h2
    rw [if_pos hw]

end Wk08
